import Mathlib

/-!
Verification of the client-side image editing and export pipeline of the
document-utility front end, together with its service-layer error handling
and the CSV exporter.  Definitions are shallow embeddings of the TypeScript
source; theorems settle the specification's claims about them.
-/

/-- The interactive crop rectangle, in percentage coordinates (0-100) of the
displayed, unrotated image.  From the `cropRect` state of `ImageEditor`
(src/vite.config.ts line 46). -/
structure CropRect where
  x : ℚ
  y : ℚ
  w : ℚ
  h : ℚ
deriving DecidableEq

/-- The drag gesture kinds of the crop editor, from the `type` union of
`dragRef` (src/vite.config.ts line 48).  Only `move` and `se` are handled by
`handleMouseMove`; the other three corners are declared but not wired. -/
inductive DragKind where
  | move
  | nw
  | ne
  | sw
  | se
deriving DecidableEq

/-- The pointer-delta conversion of `handleMouseMove`
(src/vite.config.ts lines 70-71): `((client - start) / containerExtent) * 100`. -/
def deltaPct (client start containerExtent : ℚ) : ℚ :=
  (client - start) / containerExtent * 100

/-- The core rect update of `handleMouseMove` (src/vite.config.ts lines 73-83):
starting from a copy of the drag-start snapshot `r`, the `move` branch clamps
`x`/`y` with `Math.max(0, Math.min(100 - w, x0 + dx))`, the `se` branch clamps
`w`/`h` with `Math.max(10, Math.min(100 - x0, w0 + dx))`; every other kind
leaves the copy unchanged. -/
def applyDrag (kind : DragKind) (r : CropRect) (dx dy : ℚ) : CropRect :=
  match kind with
  | DragKind.move =>
      { r with
        x := max 0 (min (100 - r.w) (r.x + dx)),
        y := max 0 (min (100 - r.h) (r.y + dy)) }
  | DragKind.se =>
      { r with
        w := max 10 (min (100 - r.x) (r.w + dx)),
        h := max 10 (min (100 - r.y) (r.h + dy)) }
  | _ => r

/-- The drag snapshot captured by `handleMouseDown` (src/vite.config.ts
lines 56-61): start pointer position, a copy of the rect at drag start, and
the gesture kind. -/
structure DragRef where
  startX : ℚ
  startY : ℚ
  startRect : CropRect
  kind : DragKind

/-- One `mousemove` update (src/vite.config.ts lines 65-83): the new rect is
computed from the drag-start snapshot and the current pointer position. -/
def handleMouseMove (d : DragRef) (containerW containerH clientX clientY : ℚ) : CropRect :=
  applyDrag d.kind d.startRect (deltaPct clientX d.startX containerW)
    (deltaPct clientY d.startY containerH)

/-- The effect of a whole sequence of `mousemove` events on the crop rect:
each event overwrites the rect with `handleMouseMove` of the snapshot and that
event's pointer position (the accumulator is never read). -/
def processMoves (d : DragRef) (containerW containerH : ℚ)
    (events : List (ℚ × ℚ)) (rect : CropRect) : CropRect :=
  events.foldl (fun _ e => handleMouseMove d containerW containerH e.1 e.2) rect

/-- The specification's clamp: `clamp(lo, hi, v) = max lo (min hi v)`. -/
def clamp (lo hi v : ℚ) : ℚ := max lo (min hi v)

/-- The CropRect invariant stated in the data model: the rect stays inside
the 0-100 box and never shrinks below 10% in either dimension. -/
def CropRect.Invariant (r : CropRect) : Prop :=
  0 ≤ r.x ∧ 0 ≤ r.y ∧ r.x + r.w ≤ 100 ∧ r.y + r.h ≤ 100 ∧ 10 ≤ r.w ∧ 10 ≤ r.h

instance (r : CropRect) : Decidable r.Invariant :=
  inferInstanceAs (Decidable (0 ≤ r.x ∧ 0 ≤ r.y ∧ r.x + r.w ≤ 100 ∧
    r.y + r.h ≤ 100 ∧ 10 ≤ r.w ∧ 10 ≤ r.h))

/-- The editor's adjustable state (src/vite.config.ts lines 39-46). -/
structure EditorState where
  brightness : ℚ
  contrast : ℚ
  saturation : ℚ
  rotation : ℤ
  isCropping : Bool
  cropRect : CropRect
deriving DecidableEq

/-- The reset action (src/vite.config.ts lines 264-266): sets brightness,
contrast and saturation to 100, rotation to 0, crop mode off, and the crop
rect to `{x:10, y:10, w:80, h:80}`. -/
def resetAll (s : EditorState) : EditorState :=
  { s with
    brightness := 100
    contrast := 100
    saturation := 100
    rotation := 0
    isCropping := false
    cropRect := ⟨10, 10, 80, 80⟩ }

/-- The rotation angle in radians computed by `handleSave`
(src/vite.config.ts line 109): `rad = rotation * PI / 180`. -/
noncomputable def radOf (rotation : ℤ) : ℝ := rotation * Real.pi / 180

/-- The destination width computed by `handleSave` (src/vite.config.ts
lines 110-112): `width * abs (cos rad) + height * abs (sin rad)`. -/
noncomputable def newWidth (w h θ : ℝ) : ℝ := w * |Real.cos θ| + h * |Real.sin θ|

/-- The destination height computed by `handleSave` (src/vite.config.ts
lines 110-113): `width * abs (sin rad) + height * abs (cos rad)`. -/
noncomputable def newHeight (w h θ : ℝ) : ℝ := w * |Real.sin θ| + h * |Real.cos θ|

/-- The canvas dimensions allocated by `handleSave` for the transform step
(src/vite.config.ts lines 115-116). -/
noncomputable def transformCanvas (w h : ℝ) (rotation : ℤ) : ℝ × ℝ :=
  (newWidth w h (radOf rotation), newHeight w h (radOf rotation))

/-- Where a source-image point `(u, v)` lands on the destination canvas under
the draw call of `handleSave` (src/vite.config.ts lines 120-122):
`translate(newWidth/2, newHeight/2)`, then `rotate(rad)`, then
`drawImage(img, -width/2, -height/2)`, so `(u, v)` is first shifted by
`(-w/2, -h/2)`, then rotated, then shifted to the canvas center. -/
noncomputable def drawnPoint (w h θ u v : ℝ) : ℝ × ℝ :=
  (newWidth w h θ / 2 + (u - w / 2) * Real.cos θ - (v - h / 2) * Real.sin θ,
   newHeight w h θ / 2 + (u - w / 2) * Real.sin θ + (v - h / 2) * Real.cos θ)

/-- The guard of the crop step inside `handleSave` (src/vite.config.ts
line 125): the crop branch runs exactly when `isCropping` holds; the rotation
is not consulted. -/
def cropAppliedInSave (isCropping : Bool) (_rotation : ℤ) : Bool := isCropping

/-- The render condition of the interactive crop overlay
(src/vite.config.ts line 192): `isCropping && rotation === 0`. -/
def cropOverlayVisible (isCropping : Bool) (rotation : ℤ) : Bool :=
  isCropping && decide (rotation = 0)

/-- The render condition of the rotate-first notice
(src/vite.config.ts line 212): `isCropping && rotation !== 0`. -/
def rotationNoticeVisible (isCropping : Bool) (rotation : ℤ) : Bool :=
  isCropping && decide (rotation ≠ 0)

/-- The dimensions of the surface `handleSave` finally exports
(src/vite.config.ts lines 108-146): the rotated bounding box, then — exactly
when the crop branch runs — the percentage crop of it. -/
noncomputable def savedDims (w h : ℝ) (rotation : ℤ) (isCropping : Bool) (rect : CropRect) : ℝ × ℝ :=
  let nW := newWidth w h (radOf rotation)
  let nH := newHeight w h (radOf rotation)
  if cropAppliedInSave isCropping rotation then
    ((rect.w : ℝ) / 100 * nW, (rect.h : ℝ) / 100 * nH)
  else
    (nW, nH)

/-- A pixel-addressable surface: dimensions plus a sampling function, the
`PixelSurface` of the data model (a canvas of a given size). -/
structure Surface (α : Type) where
  width : ℚ
  height : ℚ
  pix : ℚ → ℚ → α

/-- Source-point lookup of the nine-argument canvas `drawImage` call: a
destination point `(px, py)` inside the destination rectangle samples the
source rectangle at the corresponding scaled offset. -/
def drawImageSrcPoint (sx sy sw sh dx dy dw dh px py : ℚ) : ℚ × ℚ :=
  (sx + (px - dx) * (sw / dw), sy + (py - dy) * (sh / dh))

/-- The crop step of `handleSave` (src/vite.config.ts lines 125-145): convert
the percentage rect to pixel coordinates `cx, cy, cw, ch` against the
transformed surface, resize the result canvas to `(cw, ch)`, and
`drawImage(tempCanvas, cx, cy, cw, ch, 0, 0, cw, ch)`. -/
def cropStage {α : Type} (rect : CropRect) (s : Surface α) : Surface α :=
  let cx := rect.x / 100 * s.width
  let cy := rect.y / 100 * s.height
  let cw := rect.w / 100 * s.width
  let ch := rect.h / 100 * s.height
  { width := cw
    height := ch
    pix := fun px py =>
      let src := drawImageSrcPoint cx cy cw ch 0 0 cw ch px py
      s.pix src.1 src.2 }

/-- Tabular data handed to the CSV exporter, the `TableData` interface of
src/unnamed/part_002 (lines 173-176). -/
structure TableData where
  headers : List String
  rows : List (List String)

/-- JavaScript `Array.prototype.join`: elements concatenated with the
separator between consecutive elements, empty string for an empty array. -/
def jsJoin (sep : String) : List String → String
  | [] => ""
  | [a] => a
  | a :: b :: rest => a ++ sep ++ jsJoin sep (b :: rest)

/-- The string built by `exportTableToCSV` (src/unnamed/part_000 lines 47-51):
`[headers.join(','), ...rows.map(row => row.join(','))].join('\n')`. -/
def exportTableToCSVContent (d : TableData) : String :=
  jsJoin "\n" (jsJoin "," d.headers :: d.rows.map (jsJoin ","))

/-- The specification's description of the CSV output: the headers joined
with commas, then each row joined with commas appended after a single
newline, with no escaping of cell contents. -/
def csvSpecStr (d : TableData) : String :=
  (d.rows.map (jsJoin ",")).foldl (fun acc line => acc ++ "\n" ++ line)
    (jsJoin "," d.headers)

/-- An error surfaced by a service operation: either a fresh domain-level
`Error` with a descriptive message (`throw new Error(msg)`), or the original
exception rethrown unchanged (`throw e`). -/
inductive SvcError where
  | domain (msg : String)
  | raw (msg : String)
deriving DecidableEq

/-- Whether a service error is a fresh domain-level error rather than a
rethrown original exception. -/
def SvcError.isDomain : SvcError → Bool
  | SvcError.domain _ => true
  | SvcError.raw _ => false

/-- The JavaScript fallback `response.text || "{}"` (src/unnamed/part_002
lines 262 and 300, src/unnamed/part_003 lines 92 and 130): a missing or empty
response text is replaced by the literal `"{}"`. -/
def textOrEmptyObj : Option String → String
  | none => "\x7b\x7d"
  | some s => if s = "" then "\x7b\x7d" else s

/-- `extractTableData` of the src/unnamed/part_002 service (lines 261-266):
`JSON.parse` the response text (with the `"{}"` fallback); on a parse failure,
throw a fresh `Error("Could not extract table data.")`.  `JSON.parse` itself
is the platform parser, taken as a parameter. -/
def extractTableData_svcA {α : Type} (parse : String → Except String α)
    (respText : Option String) : Except SvcError α :=
  match parse (textOrEmptyObj respText) with
  | Except.ok v => Except.ok v
  | Except.error _ => Except.error (SvcError.domain "Could not extract table data.")

/-- `scanIDCard` of the src/unnamed/part_002 service (lines 299-304): as
`extractTableData_svcA`, but throwing `Error("Could not scan ID card.")`. -/
def scanIDCard_svcA {α : Type} (parse : String → Except String α)
    (respText : Option String) : Except SvcError α :=
  match parse (textOrEmptyObj respText) with
  | Except.ok v => Except.ok v
  | Except.error _ => Except.error (SvcError.domain "Could not scan ID card.")

/-- `extractTableData` of the src/unnamed/part_003 service (lines 91-96):
`JSON.parse` the response text (with the `"{}"` fallback) inside a
`try`/`catch` whose handler logs and rethrows the original exception
unchanged. -/
def extractTableData_svcB {α : Type} (parse : String → Except String α)
    (respText : Option String) : Except SvcError α :=
  match parse (textOrEmptyObj respText) with
  | Except.ok v => Except.ok v
  | Except.error e => Except.error (SvcError.raw e)

/-- `scanIDCard` of the src/unnamed/part_003 service (lines 129-134): as
`extractTableData_svcB`, the catch handler rethrows the original exception. -/
def scanIDCard_svcB {α : Type} (parse : String → Except String α)
    (respText : Option String) : Except SvcError α :=
  match parse (textOrEmptyObj respText) with
  | Except.ok v => Except.ok v
  | Except.error e => Except.error (SvcError.raw e)

/-- The MIME format passed to `canvas.toDataURL` by `handleSave`
(src/vite.config.ts line 149). -/
def exportFormat : String := "image/jpeg"

/-- The quality passed to `canvas.toDataURL` by `handleSave`
(src/vite.config.ts line 149): `0.9`. -/
def exportQuality : ℚ := 9 / 10

/-- JavaScript `String.prototype.split` on a single-character separator,
on the character list of the string: accumulate the current field, emit it at
each separator, emit the trailing field at the end. -/
def jsSplitAux (sep : Char) : List Char → List Char → List (List Char)
  | [], acc => [acc.reverse]
  | c :: cs, acc =>
      if c = sep then acc.reverse :: jsSplitAux sep cs []
      else jsSplitAux sep cs (c :: acc)

/-- JavaScript `String.prototype.split` with a one-character separator. -/
def jsSplit (sep : Char) (s : List Char) : List (List Char) :=
  jsSplitAux sep s []

/-- The string `canvas.toDataURL('image/jpeg', quality)` returns, as a
character list: the platform encoder emits the base64 payload behind the
fixed `data:image/jpeg;base64,` prefix (modelled platform behavior, with the
payload abstract). -/
def toDataURLJpeg (payload : List Char) : List Char :=
  ("data:image/jpeg;base64,").toList ++ payload

/-- The base64 result computed by `handleSave` (src/vite.config.ts line 149):
`canvas.toDataURL('image/jpeg', 0.9).split(',')[1]`. -/
def saveResultBase64 (payload : List Char) : List Char :=
  (jsSplit ',' (toDataURLJpeg payload)).getD 1 []

/-- The caller's file reference, the `UploadedFile` interface of
src/unnamed/part_002 (lines 160-165); the wrapped platform `File` object is
abstract. -/
structure UploadedFile (F : Type) where
  file : F
  previewUrl : String
  base64 : String
  mimeType : String

/-- `handleEditSave` of `ToolWrapper` (src/unnamed/part_000 lines 71-80):
spread the existing file reference, replacing only `base64` and
`previewUrl`. -/
def handleEditSave {F : Type} (f : UploadedFile F) (newBase64 : String) : UploadedFile F :=
  { f with
    base64 := newBase64
    previewUrl := "data:" ++ f.mimeType ++ ";base64," ++ newBase64 }

/-- Claim C4: each pointer-move update computes its delta in percentage units
of the container box, applies it to the drag-start snapshot (never compounding
frame to frame), and clamps: `move` clamps `x`/`y` into `[0, 100 - w]`,
`resize-se` clamps `w`/`h` into `[10, 100 - x0]` with minimum 10. -/
theorem drag_update_formulas :
    (∀ client start containerExtent : ℚ,
        deltaPct client start containerExtent = (client - start) / containerExtent * 100) ∧
    (∀ (r : CropRect) (dx dy : ℚ),
        applyDrag DragKind.move r dx dy =
          ⟨clamp 0 (100 - r.w) (r.x + dx), clamp 0 (100 - r.h) (r.y + dy), r.w, r.h⟩) ∧
    (∀ (r : CropRect) (dx dy : ℚ),
        applyDrag DragKind.se r dx dy =
          ⟨r.x, r.y, clamp 10 (100 - r.x) (r.w + dx), clamp 10 (100 - r.y) (r.h + dy)⟩) ∧
    (∀ (d : DragRef) (cw ch : ℚ) (es : List (ℚ × ℚ)) (e : ℚ × ℚ) (r : CropRect),
        processMoves d cw ch (es ++ [e]) r = handleMouseMove d cw ch e.1 e.2) := by
  refine ⟨fun _ _ _ => rfl, fun r dx dy => rfl, fun r dx dy => rfl, ?_⟩
  intro d cw ch es e r
  simp [processMoves, List.foldl_append]

/-- Claim C5: every drag update preserves the CropRect invariant, for every
starting rect satisfying it and every pointer delta, however large. -/
theorem drag_update_preserves_invariant (k : DragKind) (r : CropRect) (dx dy : ℚ)
    (h : r.Invariant) : (applyDrag k r dx dy).Invariant := by
  obtain ⟨hx0, hy0, hxw, hyh, hw10, hh10⟩ := h
  cases k with
  | move =>
      refine ⟨le_max_left _ _, le_max_left _ _, ?_, ?_, hw10, hh10⟩
      · have hx : max 0 (min (100 - r.w) (r.x + dx)) ≤ 100 - r.w :=
          max_le (by linarith) (min_le_left _ _)
        simpa [applyDrag] using by linarith
      · have hy : max 0 (min (100 - r.h) (r.y + dy)) ≤ 100 - r.h :=
          max_le (by linarith) (min_le_left _ _)
        simpa [applyDrag] using by linarith
  | se =>
      refine ⟨hx0, hy0, ?_, ?_, le_max_left _ _, le_max_left _ _⟩
      · have hw : max 10 (min (100 - r.x) (r.w + dx)) ≤ 100 - r.x :=
          max_le (by linarith) (min_le_left _ _)
        simpa [applyDrag] using by linarith
      · have hh : max 10 (min (100 - r.y) (r.h + dy)) ≤ 100 - r.y :=
          max_le (by linarith) (min_le_left _ _)
        simpa [applyDrag] using by linarith
  | nw => exact ⟨hx0, hy0, hxw, hyh, hw10, hh10⟩
  | ne => exact ⟨hx0, hy0, hxw, hyh, hw10, hh10⟩
  | sw => exact ⟨hx0, hy0, hxw, hyh, hw10, hh10⟩

/-- Witness for C5: the invariant of the initial rect, and of the rects a
move with a huge delta and a resize with a huge negative delta produce. -/
theorem drag_update_preserves_invariant_witness :
    (⟨10, 10, 80, 80⟩ : CropRect).Invariant ∧
    (applyDrag DragKind.move ⟨10, 10, 80, 80⟩ (-100000) 100000).Invariant ∧
    (applyDrag DragKind.se ⟨10, 10, 80, 80⟩ (-100000) 100000).Invariant :=
  ⟨by norm_num [CropRect.Invariant],
   drag_update_preserves_invariant DragKind.move ⟨10, 10, 80, 80⟩ (-100000) 100000
     (by norm_num [CropRect.Invariant]),
   drag_update_preserves_invariant DragKind.se ⟨10, 10, 80, 80⟩ (-100000) 100000
     (by norm_num [CropRect.Invariant])⟩

/-- Claim C6: the reset action restores, from every editor state, exactly
brightness 100, contrast 100, saturation 100, rotation 0, crop mode off, and
crop rect {x:10, y:10, w:80, h:80}. -/
theorem reset_restores_defaults (s : EditorState) :
    resetAll s = ⟨100, 100, 100, 0, false, ⟨10, 10, 80, 80⟩⟩ := rfl

/-- Bound on a linear combination: if the coefficients are bounded in absolute
value, so is the combination. -/
theorem abs_comb_le {a b x y A B : ℝ} (ha : |a| ≤ A) (hb : |b| ≤ B) :
    |a * x + b * y| ≤ A * |x| + B * |y| := by
  calc |a * x + b * y| ≤ |a * x| + |b * y| := abs_add _ _
    _ = |a| * |x| + |b| * |y| := by rw [abs_mul, abs_mul]
    _ ≤ A * |x| + B * |y| :=
        add_le_add (mul_le_mul_of_nonneg_right ha (abs_nonneg x))
          (mul_le_mul_of_nonneg_right hb (abs_nonneg y))

/-- Every source point drawn by the transform step lands inside the
destination bounding box. -/
theorem drawn_within (θ w h u v : ℝ) (_hw : 0 ≤ w) (_hh : 0 ≤ h)
    (hu0 : 0 ≤ u) (huw : u ≤ w) (hv0 : 0 ≤ v) (hvh : v ≤ h) :
    0 ≤ (drawnPoint w h θ u v).1 ∧ (drawnPoint w h θ u v).1 ≤ newWidth w h θ ∧
    0 ≤ (drawnPoint w h θ u v).2 ∧ (drawnPoint w h θ u v).2 ≤ newHeight w h θ := by
  have ha : |u - w / 2| ≤ w / 2 := abs_le.mpr ⟨by linarith, by linarith⟩
  have hb : |v - h / 2| ≤ h / 2 := abs_le.mpr ⟨by linarith, by linarith⟩
  have hb' : |-(v - h / 2)| ≤ h / 2 := by rwa [abs_neg]
  have hx : |(u - w / 2) * Real.cos θ + -(v - h / 2) * Real.sin θ| ≤
      w / 2 * |Real.cos θ| + h / 2 * |Real.sin θ| := abs_comb_le ha hb'
  have hy : |(u - w / 2) * Real.sin θ + (v - h / 2) * Real.cos θ| ≤
      w / 2 * |Real.sin θ| + h / 2 * |Real.cos θ| := abs_comb_le ha hb
  have hx' := abs_le.mp hx
  have hy' := abs_le.mp hy
  obtain ⟨hx1, hx2⟩ := hx'
  obtain ⟨hy1, hy2⟩ := hy'
  refine ⟨?_, ?_, ?_, ?_⟩
  · show 0 ≤ newWidth w h θ / 2 + (u - w / 2) * Real.cos θ - (v - h / 2) * Real.sin θ
    unfold newWidth at *
    nlinarith [hx1, hx2]
  · show newWidth w h θ / 2 + (u - w / 2) * Real.cos θ - (v - h / 2) * Real.sin θ ≤
      newWidth w h θ
    unfold newWidth at *
    nlinarith [hx1, hx2]
  · show 0 ≤ newHeight w h θ / 2 + (u - w / 2) * Real.sin θ + (v - h / 2) * Real.cos θ
    unfold newHeight at *
    nlinarith [hy1, hy2]
  · show newHeight w h θ / 2 + (u - w / 2) * Real.sin θ + (v - h / 2) * Real.cos θ ≤
      newHeight w h θ
    unfold newHeight at *
    nlinarith [hy1, hy2]

/-- Claim C1: the transform step allocates a destination of exactly
`w * abs (cos θ) + h * abs (sin θ)` by `w * abs (sin θ) + h * abs (cos θ)` and
draws the source translated to the destination center, rotated by `θ`, offset
by `(-w/2, -h/2)`; every point of the source image lands inside the
destination, so no corner is clipped. -/
theorem transform_contains_rotated_source (rot : ℤ) (w h u v : ℝ)
    (hw : 0 ≤ w) (hh : 0 ≤ h) (hu0 : 0 ≤ u) (huw : u ≤ w) (hv0 : 0 ≤ v) (hvh : v ≤ h) :
    transformCanvas w h rot =
      (w * |Real.cos (radOf rot)| + h * |Real.sin (radOf rot)|,
       w * |Real.sin (radOf rot)| + h * |Real.cos (radOf rot)|) ∧
    0 ≤ (drawnPoint w h (radOf rot) u v).1 ∧
    (drawnPoint w h (radOf rot) u v).1 ≤ (transformCanvas w h rot).1 ∧
    0 ≤ (drawnPoint w h (radOf rot) u v).2 ∧
    (drawnPoint w h (radOf rot) u v).2 ≤ (transformCanvas w h rot).2 :=
  ⟨rfl, (drawn_within (radOf rot) w h u v hw hh hu0 huw hv0 hvh).1,
    (drawn_within (radOf rot) w h u v hw hh hu0 huw hv0 hvh).2.1,
    (drawn_within (radOf rot) w h u v hw hh hu0 huw hv0 hvh).2.2.1,
    (drawn_within (radOf rot) w h u v hw hh hu0 huw hv0 hvh).2.2.2⟩

/-- Witness for C1: a 2 by 2 image at rotation 0, with its center point. -/
theorem transform_contains_rotated_source_witness :
    (0 : ℝ) ≤ 2 ∧ (0 : ℝ) ≤ 1 ∧ (1 : ℝ) ≤ 2 ∧
    (transformCanvas 2 2 0 =
      (2 * |Real.cos (radOf 0)| + 2 * |Real.sin (radOf 0)|,
       2 * |Real.sin (radOf 0)| + 2 * |Real.cos (radOf 0)|) ∧
     0 ≤ (drawnPoint 2 2 (radOf 0) 1 1).1 ∧
     (drawnPoint 2 2 (radOf 0) 1 1).1 ≤ (transformCanvas 2 2 0).1 ∧
     0 ≤ (drawnPoint 2 2 (radOf 0) 1 1).2 ∧
     (drawnPoint 2 2 (radOf 0) 1 1).2 ≤ (transformCanvas 2 2 0).2) :=
  ⟨by norm_num, by norm_num, by norm_num,
   transform_contains_rotated_source 0 2 2 1 1 (by norm_num) (by norm_num)
     (by norm_num) (by norm_num) (by norm_num) (by norm_num)⟩

/-- Counterexample for C3: with crop mode on and rotation 90, the save path
still applies the crop: a 100 by 50 image yields a 40 by 80 output, not the
uncropped 50 by 100 rotated bounding box the claim requires. -/
theorem crop_applied_despite_rotation :
    cropAppliedInSave true 90 = true ∧ (90 : ℤ) ≠ 0 ∧
    savedDims 100 50 90 true ⟨10, 10, 80, 80⟩ = (40, 80) ∧
    (newWidth 100 50 (radOf 90), newHeight 100 50 (radOf 90)) = (50, 100) ∧
    ((40 : ℝ), (80 : ℝ)) ≠ ((50 : ℝ), (100 : ℝ)) := by
  have hrad : radOf 90 = Real.pi / 2 := by
    unfold radOf
    push_cast
    ring
  refine ⟨rfl, by decide, ?_, ?_, ?_⟩
  · simp only [savedDims, cropAppliedInSave, if_true, hrad, newWidth, newHeight,
      Real.cos_pi_div_two, Real.sin_pi_div_two, abs_zero, abs_one]
    norm_num
  · simp only [hrad, newWidth, newHeight, Real.cos_pi_div_two, Real.sin_pi_div_two,
      abs_zero, abs_one]
    norm_num
  · intro hcontra
    have := congrArg Prod.fst hcontra
    norm_num at this

/-- Claim C3 as amended: the zero-rotation restriction on cropping is purely a
presentation rule — the overlay is rendered exactly when crop mode is on and
rotation is 0, and the notice exactly when crop mode is on and rotation is
nonzero — while the save path applies the crop exactly when crop mode is on,
regardless of rotation, producing the percentage crop of the rotated bounding
box. -/
theorem crop_save_vs_overlay :
    (∀ (c : Bool) (rot : ℤ), cropAppliedInSave c rot = c) ∧
    (∀ (c : Bool) (rot : ℤ), cropOverlayVisible c rot = (c && decide (rot = 0))) ∧
    (∀ (c : Bool) (rot : ℤ), rotationNoticeVisible c rot = (c && decide (rot ≠ 0))) ∧
    (∀ (w h : ℝ) (rot : ℤ) (rect : CropRect),
        savedDims w h rot true rect =
          ((rect.w : ℝ) / 100 * newWidth w h (radOf rot),
           (rect.h : ℝ) / 100 * newHeight w h (radOf rot)) ∧
        savedDims w h rot false rect =
          (newWidth w h (radOf rot), newHeight w h (radOf rot))) :=
  ⟨fun _ _ => rfl, fun _ _ => rfl, fun _ _ => rfl, fun _ _ _ _ => ⟨rfl, rfl⟩⟩

/-- Claim C2: the crop step converts the percentage rect to pixel coordinates
against the transformed surface, allocates exactly `(cw, ch)`, and copies the
region verbatim (the `drawImage` scale factors cancel); in particular the rect
`{x:10, y:10, w:80, h:80}` on a 1000 by 1000 surface yields exactly 800 by 800
sampled from offset (100, 100). -/
theorem crop_stage_exact_region {α : Type} (rect : CropRect) (s : Surface α)
    (hcw : rect.w / 100 * s.width ≠ 0) (hch : rect.h / 100 * s.height ≠ 0) :
    (cropStage rect s).width = rect.w / 100 * s.width ∧
    (cropStage rect s).height = rect.h / 100 * s.height ∧
    (∀ px py, (cropStage rect s).pix px py =
        s.pix (rect.x / 100 * s.width + px) (rect.y / 100 * s.height + py)) ∧
    (cropStage ⟨10, 10, 80, 80⟩ ⟨1000, 1000, s.pix⟩).width = 800 ∧
    (cropStage ⟨10, 10, 80, 80⟩ ⟨1000, 1000, s.pix⟩).height = 800 ∧
    (∀ px py, (cropStage ⟨10, 10, 80, 80⟩ ⟨1000, 1000, s.pix⟩).pix px py =
        s.pix (100 + px) (100 + py)) := by
  refine ⟨rfl, rfl, ?_, by norm_num [cropStage], by norm_num [cropStage], ?_⟩
  · intro px py
    simp only [cropStage, drawImageSrcPoint, sub_zero, div_self hcw, div_self hch, mul_one]
  · intro px py
    norm_num [cropStage, drawImageSrcPoint]

/-- Witness for C2: the 10/10/80/80 rect on a concrete 1000 by 1000 surface. -/
theorem crop_stage_exact_region_witness :
    (cropStage ⟨10, 10, 80, 80⟩ (⟨1000, 1000, fun px py => px + py⟩ : Surface ℚ)).width = 800 ∧
    (cropStage ⟨10, 10, 80, 80⟩ (⟨1000, 1000, fun px py => px + py⟩ : Surface ℚ)).pix 5 7 = 212 := by
  have h := crop_stage_exact_region ⟨10, 10, 80, 80⟩
    (⟨1000, 1000, fun px py => px + py⟩ : Surface ℚ) (by norm_num) (by norm_num)
  refine ⟨?_, ?_⟩
  · rw [h.1]
    norm_num
  · rw [h.2.2.1 5 7]
    norm_num

/-- The fold the specification's row-by-row description of the CSV output
performs agrees with the JavaScript two-level `join`. -/
theorem foldl_append_line (p : String) (l : List String) (a : String) :
    p ++ l.foldl (fun acc line => acc ++ "\n" ++ line) a =
      l.foldl (fun acc line => acc ++ "\n" ++ line) (p ++ a) := by
  induction l generalizing a with
  | nil => rfl
  | cons c cs ih =>
      show p ++ cs.foldl _ (a ++ "\n" ++ c) = cs.foldl _ (p ++ a ++ "\n" ++ c)
      rw [ih (a ++ "\n" ++ c)]
      congr 1
      simp [String.append_assoc]

/-- The JavaScript `join('\n')` over a nonempty list equals the left fold that
appends each further line after a newline. -/
theorem jsJoin_eq_foldl (x : String) (l : List String) :
    jsJoin "\n" (x :: l) = l.foldl (fun acc line => acc ++ "\n" ++ line) x := by
  induction l generalizing x with
  | nil => rfl
  | cons b rest ih =>
      show x ++ "\n" ++ jsJoin "\n" (b :: rest) = _
      rw [ih b]
      exact foldl_append_line (x ++ "\n") rest b

/-- Claim C7: the CSV exporter produces exactly the headers joined with
commas, then each row joined with commas, rows separated by a single newline
and no escaping; the `{A,B} / {1,2}` table yields exactly `A,B\n1,2`, and a
cell with an embedded comma is emitted verbatim (indistinguishable from two
cells). -/
theorem csv_export_join :
    (∀ d : TableData, exportTableToCSVContent d = csvSpecStr d) ∧
    exportTableToCSVContent ⟨["A", "B"], [["1", "2"]]⟩ = "A,B\n1,2" ∧
    exportTableToCSVContent ⟨["a,b"], []⟩ = exportTableToCSVContent ⟨["a", "b"], []⟩ ∧
    exportTableToCSVContent ⟨["x"], [["p,q", "r\ns"]]⟩ = "x\np,q,r\ns" :=
  ⟨fun _ => jsJoin_eq_foldl _ _, rfl, rfl, rfl⟩

/-- Claim C8 as amended: in the src/unnamed/part_002 service a parse failure
is caught and re-raised as a fresh descriptive domain error, while in the
src/unnamed/part_003 service the handler rethrows the original parse
exception unchanged, so there the raw error does reach the caller. -/
theorem parse_failure_error_paths {α : Type} (parse : String → Except String α)
    (respText : Option String) (e : String)
    (h : parse (textOrEmptyObj respText) = Except.error e) :
    extractTableData_svcA parse respText =
      Except.error (SvcError.domain "Could not extract table data.") ∧
    scanIDCard_svcA parse respText =
      Except.error (SvcError.domain "Could not scan ID card.") ∧
    extractTableData_svcB parse respText = Except.error (SvcError.raw e) ∧
    scanIDCard_svcB parse respText = Except.error (SvcError.raw e) := by
  refine ⟨?_, ?_, ?_, ?_⟩ <;>
    simp [extractTableData_svcA, scanIDCard_svcA, extractTableData_svcB,
      scanIDCard_svcB, h]

/-- Witness for C8: a parser that fails on everything. -/
theorem parse_failure_error_paths_witness :
    ((fun _ : String => (Except.error "boom" : Except String Nat))
        (textOrEmptyObj (some "not json")) = Except.error "boom") ∧
    extractTableData_svcA (fun _ : String => (Except.error "boom" : Except String Nat))
        (some "not json") =
      Except.error (SvcError.domain "Could not extract table data.") ∧
    scanIDCard_svcB (fun _ : String => (Except.error "boom" : Except String Nat))
        (some "not json") = Except.error (SvcError.raw "boom") := by
  have h := parse_failure_error_paths
    (fun _ : String => (Except.error "boom" : Except String Nat)) (some "not json") "boom" rfl
  exact ⟨rfl, h.1, h.2.2.2⟩

/-- Counterexample for C8: the src/unnamed/part_003 `extractTableData` lets
the raw parse exception reach the caller instead of a domain-level error. -/
theorem raw_parse_error_reaches_caller :
    extractTableData_svcB
        (fun _ : String => (Except.error "SyntaxError: Unexpected token" : Except String Nat))
        (some "not json") =
      Except.error (SvcError.raw "SyntaxError: Unexpected token") ∧
    (SvcError.raw "SyntaxError: Unexpected token").isDomain = false :=
  ⟨rfl, rfl⟩

/-- Claim C10: an empty or missing response text is replaced by the literal
`"\x7b\x7d"`, which parses successfully, so both services' table extraction and
ID-card scanning return the empty object instead of failing, and an absent
response is indistinguishable from an empty extraction result. -/
theorem empty_response_yields_empty_object {α : Type}
    (parse : String → Except String α) (emptyObj : α)
    (h : parse "\x7b\x7d" = Except.ok emptyObj) :
    textOrEmptyObj none = "\x7b\x7d" ∧ textOrEmptyObj (some "") = "\x7b\x7d" ∧
    extractTableData_svcA parse none = Except.ok emptyObj ∧
    extractTableData_svcA parse (some "") = Except.ok emptyObj ∧
    extractTableData_svcB parse none = Except.ok emptyObj ∧
    extractTableData_svcB parse (some "") = Except.ok emptyObj ∧
    scanIDCard_svcA parse none = Except.ok emptyObj ∧
    scanIDCard_svcA parse (some "") = Except.ok emptyObj ∧
    scanIDCard_svcB parse none = Except.ok emptyObj ∧
    scanIDCard_svcB parse (some "") = Except.ok emptyObj := by
  have h1 : textOrEmptyObj (some "") = "\x7b\x7d" := by simp [textOrEmptyObj]
  refine ⟨rfl, h1, ?_, ?_, ?_, ?_, ?_, ?_, ?_, ?_⟩ <;>
    simp [extractTableData_svcA, scanIDCard_svcA, extractTableData_svcB,
      scanIDCard_svcB, textOrEmptyObj, h]

/-- Witness for C10: a concrete parser that accepts exactly the empty-object
literal. -/
theorem empty_response_yields_empty_object_witness :
    ((fun s : String => if s = "\x7b\x7d" then (Except.ok 0 : Except String Nat)
        else Except.error "parse error") "\x7b\x7d" = Except.ok 0) ∧
    extractTableData_svcA
      (fun s : String => if s = "\x7b\x7d" then (Except.ok 0 : Except String Nat)
        else Except.error "parse error") none = Except.ok 0 ∧
    scanIDCard_svcB
      (fun s : String => if s = "\x7b\x7d" then (Except.ok 0 : Except String Nat)
        else Except.error "parse error") (some "") = Except.ok 0 := by
  have hp : (fun s : String => if s = "\x7b\x7d" then (Except.ok 0 : Except String Nat)
      else Except.error "parse error") "\x7b\x7d" = Except.ok 0 := by simp
  have h := empty_response_yields_empty_object
    (fun s : String => if s = "\x7b\x7d" then (Except.ok 0 : Except String Nat)
      else Except.error "parse error") 0 hp
  exact ⟨hp, h.2.2.1, h.2.2.2.2.2.2.2.2.2⟩

/-- Splitting a separator-free field only accumulates it. -/
theorem jsSplitAux_no_sep (sep : Char) (l acc : List Char) (h : sep ∉ l) :
    jsSplitAux sep l acc = [acc.reverse ++ l] := by
  induction l generalizing acc with
  | nil => simp [jsSplitAux]
  | cons c cs ih =>
      rw [List.mem_cons] at h
      push_neg at h
      obtain ⟨h1, h2⟩ := h
      rw [jsSplitAux, if_neg (fun hc => h1 hc.symm)]
      rw [ih (c :: acc) h2]
      simp

/-- Splitting past a separator-free prefix emits that prefix as the first
field. -/
theorem jsSplitAux_through (sep : Char) (pre payload acc : List Char) (h : sep ∉ pre) :
    jsSplitAux sep (pre ++ sep :: payload) acc =
      (acc.reverse ++ pre) :: jsSplitAux sep payload [] := by
  induction pre generalizing acc with
  | nil => simp [jsSplitAux]
  | cons c cs ih =>
      rw [List.mem_cons] at h
      push_neg at h
      obtain ⟨h1, h2⟩ := h
      rw [List.cons_append, jsSplitAux, if_neg (fun hc => h1 hc.symm)]
      rw [ih (c :: acc) h2]
      simp

/-- `split(',')[1]` of the data URL recovers exactly the base64 payload. -/
theorem saveResultBase64_eq (payload : List Char) (h : ',' ∉ payload) :
    saveResultBase64 payload = payload := by
  have hpre : ("data:image/jpeg;base64,").toList =
      ("data:image/jpeg;base64").toList ++ [','] := by decide
  unfold saveResultBase64 toDataURLJpeg jsSplit
  rw [hpre, List.append_assoc, List.singleton_append]
  rw [jsSplitAux_through ',' _ _ _ (by decide)]
  rw [jsSplitAux_no_sep ',' _ _ h]
  simp

/-- Claim C9: the save encoder serializes at JPEG quality 0.9, the base64
handed to the caller carries no data-URI prefix, and the caller's file
reference keeps its `File` object and MIME type while only the base64 payload
and preview URL change. -/
theorem save_export_contract (payload : List Char) (h : ',' ∉ payload) :
    saveResultBase64 payload = payload ∧
    exportFormat = "image/jpeg" ∧
    exportQuality = 9 / 10 ∧
    ∀ (F : Type) (f : UploadedFile F) (b : String),
      (handleEditSave f b).file = f.file ∧
      (handleEditSave f b).mimeType = f.mimeType ∧
      (handleEditSave f b).base64 = b ∧
      (handleEditSave f b).previewUrl = "data:" ++ f.mimeType ++ ";base64," ++ b :=
  ⟨saveResultBase64_eq payload h, rfl, rfl, fun _ _ _ => ⟨rfl, rfl, rfl, rfl⟩⟩

/-- Witness for C9: a concrete base64 payload and file reference. -/
theorem save_export_contract_witness :
    (',' ∉ ['Q', 'g', '=']) ∧
    saveResultBase64 ['Q', 'g', '='] = ['Q', 'g', '='] ∧
    (handleEditSave (⟨(), "oldUrl", "oldB64", "image/png"⟩ : UploadedFile Unit)
        "Qg=").mimeType = "image/png" ∧
    (handleEditSave (⟨(), "oldUrl", "oldB64", "image/png"⟩ : UploadedFile Unit)
        "Qg=").base64 = "Qg=" := by
  have h := save_export_contract ['Q', 'g', '='] (by decide)
  exact ⟨by decide, h.1,
    (h.2.2.2 Unit (⟨(), "oldUrl", "oldB64", "image/png"⟩ : UploadedFile Unit) "Qg=").2.1,
    (h.2.2.2 Unit (⟨(), "oldUrl", "oldB64", "image/png"⟩ : UploadedFile Unit) "Qg=").2.2.1⟩
